import Mathlib

/-!
Verification of the SQL safety validator and orchestration state machine of
the `langchain_data_agent` repository.

The development shallowly embeds the parts of the code that the verified
claims are about:

* `src/data_agent/validators/sql_validator.py` — the `SQLValidator` facade
  (statement classifier, function blocklist scan, row-limit enforcement and
  the lexical fallback validator).  The external `sqlglot` parser is
  abstracted: parsed statements are modelled by `Expression` (top-level node
  kind, the `sql_name()` of every function node found by `find_all(exp.Func)`
  and the literal value of an existing `LIMIT` clause), and `parse` /
  `render` (`sqlglot.parse_one` / `Expression.sql`) are parameters of the
  embedded `validate`.
* `src/data_agent/nodes/data_nodes.py` and `src/data_agent/graph.py` — the
  generate / validate / retry loop and the post-execution routing.
* `src/data_agent/agent.py` — the intent-detection node with its one-shot
  clarification interrupt and the out-of-scope terminal node.

Python's `str.strip` / `str.upper` / `str.lower` / substring test are
embedded as `pyStrip` / `pyUpper` / `pyLower` / `strContains` over the
character list of a `String` (ASCII behaviour, which is what the SQL
keywords and function names exercise).
-/

/-- Python `needle in haystack` test on character lists: `listStartsWith l p`
is true when `p` is a prefix of `l` (Python `startswith`). -/
def listStartsWith : List Char → List Char → Bool
  | _, [] => true
  | [], _ :: _ => false
  | c :: cs, p :: ps => c == p && listStartsWith cs ps

/-- Python `pat in l`: `pat` occurs contiguously inside `l`. -/
def listContains : List Char → List Char → Bool
  | [], pat => listStartsWith [] pat
  | c :: rest, pat => listStartsWith (c :: rest) pat || listContains rest pat

/-- Python `pat in s` for strings. -/
def strContains (s pat : String) : Bool :=
  listContains s.data pat.data

/-- Python `str.strip()` (ASCII whitespace). -/
def pyStrip (s : String) : String :=
  ⟨((s.data.dropWhile Char.isWhitespace).reverse.dropWhile Char.isWhitespace).reverse⟩

/-- Python `str.upper()` (ASCII letters, which is all the validator compares). -/
def pyUpper (s : String) : String :=
  ⟨s.data.map Char.toUpper⟩

/-- Python `str.lower()` (ASCII letters). -/
def pyLower (s : String) : String :=
  ⟨s.data.map Char.toLower⟩

/-- Python `str.startswith`. -/
def pyStartsWith (s pre : String) : Bool :=
  listStartsWith s.data pre.data

/-- Python `", ".join(l)`. -/
def joinComma : List String → String
  | [] => ""
  | [s] => s
  | s :: rest => s ++ ", " ++ joinComma rest

/-- `String.data` distributes over append. -/
theorem strData_append (a b : String) : (a ++ b).data = a.data ++ b.data := by
  cases a; cases b; rfl

theorem listStartsWith_append_self (pat t : List Char) :
    listStartsWith (pat ++ t) pat = true := by
  induction pat with
  | nil => cases t <;> rfl
  | cons p ps ih => simp [listStartsWith, ih]

theorem listContains_of_startsWith {l pat : List Char}
    (h : listStartsWith l pat = true) : listContains l pat = true := by
  cases l with
  | nil => exact h
  | cons c rest => simp [listContains, h]

theorem listContains_cons {rest pat : List Char} (c : Char)
    (h : listContains rest pat = true) : listContains (c :: rest) pat = true := by
  simp [listContains, h]

theorem listContains_append_left (s : List Char) {l pat : List Char}
    (h : listContains l pat = true) : listContains (s ++ l) pat = true := by
  induction s with
  | nil => exact h
  | cons c cs ih => exact listContains_cons c ih

/-- If `l` decomposes as `s ++ pat ++ t` then the Python substring test finds
`pat` inside `l`. -/
theorem listContains_parts (s t pat : List Char) :
    listContains (s ++ pat ++ t) pat = true := by
  have h1 : listContains (pat ++ t) pat = true :=
    listContains_of_startsWith (listStartsWith_append_self pat t)
  have h2 := listContains_append_left s h1
  rw [List.append_assoc]
  exact h2

/-- Every member of a list occurs inside its `", ".join`. -/
theorem joinComma_decomp {x : String} :
    ∀ {l : List String}, x ∈ l →
      ∃ s t, (joinComma l).data = s ++ x.data ++ t := by
  intro l
  induction l with
  | nil => intro h; cases h
  | cons a rest ih =>
    intro h
    cases rest with
    | nil =>
      have hx : x = a := by
        cases h with
        | head => rfl
        | tail _ h' => cases h'
      exact ⟨[], [], by simp [joinComma, hx]⟩
    | cons b bs =>
      have hjoin : joinComma (a :: b :: bs) = (a ++ ", ") ++ joinComma (b :: bs) :=
        rfl
      cases h with
      | head =>
        refine ⟨[], (", " ++ joinComma (b :: bs)).data, ?_⟩
        rw [hjoin, strData_append, strData_append, strData_append]
        simp
      | tail _ h' =>
        obtain ⟨s, t, hs⟩ := ih h'
        refine ⟨(a ++ ", ").data ++ s, t, ?_⟩
        rw [hjoin, strData_append, hs]
        simp

/-- A string with a nonempty left part of an append is nonempty. -/
theorem strAppend_ne_empty {a : String} (b : String) (ha : a.data ≠ []) :
    a ++ b ≠ "" := by
  intro h
  apply ha
  have hd := congrArg String.data h
  rw [strData_append] at hd
  exact (List.append_eq_nil.mp hd).1

/-! ## The SQL validator (`validators/sql_validator.py`) -/

/-- `ValidationStatus` (`sql_validator.py`, lines 16-21).  The Python member
`UNSAFE` is spelled `notSafe` here because `unsafe` is a reserved word in
Lean. -/
inductive ValidationStatus where
  | valid
  | invalid
  | notSafe
deriving DecidableEq, Repr

/-- `ValidationResult` (`sql_validator.py`, lines 24-40). -/
structure ValidationResult where
  status : ValidationStatus
  query : String
  errors : List String
  warnings : List String
  dialect : String
deriving DecidableEq, Repr

/-- Top-level node kind of a `sqlglot` parse tree, at the granularity the
validator inspects (`exp.Select`, the `WRITE_STATEMENTS` classes, the set
operations, `exp.Subquery`, and everything else, e.g. `exp.Command`). -/
inductive ExprKind where
  | select
  | union
  | intersect
  | exceptOp
  | subquery
  | insert
  | update
  | delete
  | drop
  | create
  | alter
  | merge
  | truncateTable
  | copy
  | loadData
  | grant
  | revoke
  | command
  | other
deriving DecidableEq, Repr

/-- Membership in `SQLValidator.WRITE_STATEMENTS` (`sql_validator.py`,
lines 66-79). -/
def isWriteKind : ExprKind → Bool
  | .insert => true
  | .update => true
  | .delete => true
  | .drop => true
  | .create => true
  | .alter => true
  | .merge => true
  | .truncateTable => true
  | .copy => true
  | .loadData => true
  | .grant => true
  | .revoke => true
  | _ => false

/-- Abstraction of a parsed `sqlglot` expression: its top-level node kind,
the `sql_name()` of every `exp.Func` node in the tree in `find_all` order,
and the `LIMIT` clause (`none` = no `exp.Limit` node; `some none` = a limit
whose expression is not an integer literal, so `int(...)` raises;
`some (some n)` = a literal integer limit `n`). -/
structure Expression where
  kind : ExprKind
  funcs : List String
  limit : Option (Option Int)
deriving DecidableEq, Repr

/-- `SQLValidator.DANGEROUS_FUNCTIONS` (`sql_validator.py`, lines 81-112). -/
def DANGEROUS_FUNCTIONS : List String :=
  ["pg_sleep", "pg_read_file", "pg_read_binary_file", "pg_ls_dir",
   "pg_stat_file", "lo_import", "lo_export", "sleep", "benchmark",
   "load_file", "into_outfile", "into_dumpfile", "xp_cmdshell",
   "xp_fileexist", "xp_dirtree", "xp_regread", "xp_regwrite", "sp_oacreate",
   "sp_oamethod", "openrowset", "opendatasource", "bulk", "waitfor",
   "session_user", "reflect", "java_method", "exec", "execute", "system",
   "shell"]

/-- `SQLValidator.BASIC_VALIDATION_DIALECTS` (`sql_validator.py`,
lines 115-117). -/
def BASIC_VALIDATION_DIALECTS : List String := ["cosmosdb"]

/-- `SQLValidator.DISALLOWED_KEYWORDS` (`sql_validator.py`, lines 120-131).
Python iterates a `set` here; the scan below only asks whether some keyword
matches, so the iteration order is irrelevant to every verified statement. -/
def DISALLOWED_KEYWORDS : List String :=
  ["INSERT", "UPDATE", "DELETE", "DROP", "CREATE", "ALTER", "TRUNCATE",
   "MERGE", "GRANT", "REVOKE"]

/-- `SQLValidator.DIALECT_MAP` (`sql_validator.py`, lines 133-138). -/
def DIALECT_MAP : List (String × String) :=
  [("mssql", "tsql"), ("azure_sql", "tsql"), ("synapse", "tsql"),
   ("postgresql", "postgres")]

/-- The state built by `SQLValidator.__init__`. -/
structure SQLValidator where
  dialect : String
  max_limit : Int
  blocked_functions : List String
deriving DecidableEq, Repr

/-- `SQLValidator.__init__` (`sql_validator.py`, lines 140-157): the dialect
is normalized through `DIALECT_MAP` and the blocklist is the default set
extended (never shrunk) by the configured extra functions. -/
def mkValidator (dialect : String) (max_limit : Int)
    (blocked_functions : Option (List String)) : SQLValidator :=
  { dialect := ((DIALECT_MAP.lookup dialect).getD dialect)
  , max_limit := max_limit
  , blocked_functions := DANGEROUS_FUNCTIONS ++ blocked_functions.getD [] }

/-- `SQLValidator._is_select_statement` (`sql_validator.py`, lines 216-235). -/
def isSelectStatement (e : Expression) : Bool :=
  if e.kind = .select then true
  else if isWriteKind e.kind then false
  else if e.kind = .union ∨ e.kind = .intersect ∨ e.kind = .exceptOp then true
  else e.kind = .subquery

/-- `SQLValidator._find_dangerous_functions` (`sql_validator.py`,
lines 237-251): lower-case every function name and keep the blocklisted
ones. -/
def findDangerousFunctions (v : SQLValidator) (e : Expression) : List String :=
  (e.funcs.map pyLower).filter (fun n => v.blocked_functions.contains n)

/-- `SQLValidator._enforce_limit` (`sql_validator.py`, lines 253-278)
together with the `transformed != parsed` comparison of `validate`
(line 203).  The boolean records whether `_enforce_limit` returned a *new*
object: only the no-limit branch does (`parsed.limit(...)` copies), while
clamping an oversized limit mutates `parsed` in place via
`existing_limit.set(...)`, so `validate`'s `transformed != parsed` compares
the mutated object with itself and is `False` there. -/
def enforceLimit (v : SQLValidator) (e : Expression) : Expression × Bool :=
  if e.kind ≠ ExprKind.select then (e, false)
  else
    match e.limit with
    | none => ({ e with limit := some (some v.max_limit) }, true)
    | some (some n) =>
      if n > v.max_limit then ({ e with limit := some (some v.max_limit) }, false)
      else (e, false)
    | some none => (e, false)

/-- `SQLValidator._validate_basic` (`sql_validator.py`, lines 280-321): the
lexical fallback for dialects `sqlglot` cannot parse. -/
def validateBasic (v : SQLValidator) (query : String) : ValidationResult :=
  let query_upper := pyUpper (pyStrip query)
  if pyStartsWith query_upper "SELECT" = false then
    { status := .notSafe, query := query
    , errors := ["Queries must start with SELECT"], warnings := []
    , dialect := v.dialect }
  else
    match DISALLOWED_KEYWORDS.find?
        (fun kw => strContains (" " ++ query_upper ++ " ") (" " ++ kw ++ " ")) with
    | some kw =>
      { status := .notSafe, query := query
      , errors := [kw ++ " operations are not allowed"], warnings := []
      , dialect := v.dialect }
    | none =>
      { status := .valid, query := query, errors := []
      , warnings := ["Basic validation used for " ++ v.dialect ++ " dialect"]
      , dialect := v.dialect }

/-- The structural path of `SQLValidator.validate` (`sql_validator.py`,
lines 172-214), taking the outcome of `sqlglot.parse_one` (`.error msg` for
a `ParseError`) and the dialect-specific renderer `fun e => e.sql(dialect)`. -/
def validateStructural (v : SQLValidator) (render : Expression → String)
    (query : String) (p : Except String Expression) : ValidationResult :=
  match p with
  | .error msg =>
    { status := .invalid, query := query
    , errors := ["SQL syntax error: " ++ msg], warnings := []
    , dialect := v.dialect }
  | .ok parsed =>
    if isSelectStatement parsed then
      let dangerous := findDangerousFunctions v parsed
      if dangerous.isEmpty then
        let transformed := enforceLimit v parsed
        let warnings :=
          if transformed.snd then
            ["LIMIT clause added/modified to max " ++ toString v.max_limit]
          else []
        { status := .valid, query := render transformed.fst, errors := []
        , warnings := warnings, dialect := v.dialect }
      else
        { status := .notSafe, query := query
        , errors := ["Blocked function(s) detected: " ++ joinComma dangerous]
        , warnings := [], dialect := v.dialect }
    else
      { status := .notSafe, query := query
      , errors := ["Only SELECT statements are allowed"], warnings := []
      , dialect := v.dialect }

/-- `SQLValidator.validate` (`sql_validator.py`, lines 159-214): dispatch to
the lexical fallback for `BASIC_VALIDATION_DIALECTS`, otherwise parse and
run the structural pipeline. -/
def validateWith (v : SQLValidator) (parse : String → Except String Expression)
    (render : Expression → String) (query : String) : ValidationResult :=
  if BASIC_VALIDATION_DIALECTS.contains v.dialect then validateBasic v query
  else validateStructural v render query (parse query)

/-! ## The generate / validate / retry loop
(`nodes/data_nodes.py` together with the conditional edges of `graph.py`)

The scenario the claims describe fixes the completion function to one that
always returns a query the validator rejects; the loop's control state is
then the `retry_count` / `error` fields of the LangGraph state plus a
counter of completion-function calls (`self._sql_llm.ainvoke`).  The string
`errs` stands for the Python rendering `str(result.errors)` of the
validator's error list. -/

structure LoopState where
  retryCount : Nat
  error : Option String
  genCalls : Nat
deriving DecidableEq, Repr

/-- `DataAgentNodes.generate_sql` (`data_nodes.py`, lines 178-211): one
completion call; it does not touch `error` or `retry_count`. -/
def generateNode (s : LoopState) : LoopState :=
  { s with genCalls := s.genCalls + 1 }

/-- `DataAgentNodes._validate_sql_query` (`data_nodes.py`, lines 229-291) in
the always-rejected scenario: below the budget it stores a recoverable
`Validation error`, at or above the budget the fatal
`Validation failed after N attempts` message. -/
def validateNodeAlwaysBad (maxRetries : Nat) (errs : String) (s : LoopState) :
    LoopState :=
  if s.retryCount ≥ maxRetries then
    { s with error := some ("Validation failed after " ++ toString s.retryCount
        ++ " attempts: " ++ errs) }
  else
    { s with error := some ("Validation error: " ++ errs) }

inductive RetryRoute where
  | execute
  | endRoute
  | retry
deriving DecidableEq, Repr

/-- `DataAgentGraph._should_retry` (`graph.py`, lines 71-87). -/
def shouldRetry (error : Option String) : RetryRoute :=
  match error with
  | none => .execute
  | some e =>
    if e = "" then .execute
    else if strContains e "failed after" || strContains e "Max retries" then
      .endRoute
    else .retry

/-- `DataAgentNodes.retry_sql` (`data_nodes.py`, lines 352-395) in the same
scenario: increments the retry counter, calls the completion function once
and clears `error` — unless the incremented counter already exceeds the
budget, in which case it only stores the `Max retries` error (no completion
call, `retry_count` left unchanged in the state). -/
def retryNodeAlwaysBad (maxRetries : Nat) (s : LoopState) : LoopState :=
  let rc := s.retryCount + 1
  if rc > maxRetries then
    { s with error := some ("Max retries (" ++ toString maxRetries
        ++ ") exceeded") }
  else
    { s with retryCount := rc, error := none, genCalls := s.genCalls + 1 }

/-- The cycle `validate_sql -(retry)-> retry_sql -> validate_sql` of the
compiled graph (`graph.py`, lines 123-129), driven until `_should_retry`
stops returning `retry` or the fuel runs out. -/
def retrySteps (maxRetries : Nat) (errs : String) : Nat → LoopState → LoopState
  | 0, s => s
  | fuel + 1, s =>
    match shouldRetry s.error with
    | .retry =>
      retrySteps maxRetries errs fuel
        (validateNodeAlwaysBad maxRetries errs (retryNodeAlwaysBad maxRetries s))
    | _ => s

/-- The whole pipeline from the entry point `generate_sql` (`graph.py`,
line 121) in the always-rejected scenario. -/
def runRetryAlwaysBad (maxRetries fuel : Nat) (errs : String) : LoopState :=
  retrySteps maxRetries errs fuel
    (validateNodeAlwaysBad maxRetries errs (generateNode ⟨0, none, 0⟩))

/-! ## The intent router (`agent.py`, `intent_detection_node`) -/

/-- The interrupt payload surfaced by `interrupt({...})` (`agent.py`,
lines 295-302). -/
structure InterruptPayload where
  kind : String
  message : String
  original_question : String
  hint : String
deriving DecidableEq, Repr

/-- The state update returned by a completed `intent_detection_node` run:
the optional replacement question, `datasource_name` and `error`. -/
structure IntentUpdate where
  question : Option String
  datasource_name : String
  error : Option String
deriving DecidableEq, Repr

/-- Either the node suspended on the clarification interrupt (first
execution with no resume value) or it completed with a state update. -/
inductive IntentResult where
  | suspended (payload : InterruptPayload)
  | completed (update : IntentUpdate)
deriving DecidableEq, Repr

/-- `intent_detection_node` (`agent.py`, lines 268-346).  `classify` is the
completion call returning `response.content` (stripped by the node);
`resume` is the clarified question extracted from the resume value — `none`
on the first execution, so `interrupt(...)` raises and the run suspends; on
resume LangGraph re-executes the node and `interrupt(...)` returns the
resume value instead. -/
def intentDetectionNode (classify : String → String) (agentNames : List String)
    (question : String) (resume : Option String) : IntentResult :=
  let selected := pyStrip (classify question)
  if agentNames.contains selected then
    .completed { question := none, datasource_name := selected, error := none }
  else
    match resume with
    | none =>
      .suspended
        { kind := "clarification_needed"
        , message := "I couldn\x27t understand your question. Could you please provide more details or rephrase it?"
        , original_question := question
        , hint := "Try being more specific about what data you\x27re looking for." }
    | some clarified =>
      if clarified ≠ "" then
        let selected2 := pyStrip (classify clarified)
        if agentNames.contains selected2 then
          .completed
            { question := some clarified, datasource_name := selected2
            , error := none }
        else
          .completed
            { question := none, datasource_name := ""
            , error := some "out_of_scope" }
      else
        .completed
          { question := none, datasource_name := ""
          , error := some "out_of_scope" }

/-- `route_after_intent` (`agent.py`, lines 450-455). -/
def routeAfterIntent (datasource_name : String) (error : Option String) :
    String :=
  if datasource_name = "" ∨ error = some "out_of_scope" then "out_of_scope"
  else "query_rewrite"

/-- `out_of_scope_node` (`agent.py`, lines 417-433): final response text and
the terminal `out_of_scope` error marker; the workflow wires this node
straight to `END` (`agent.py`, line 471).  The result is the pair
`(final_response, error)` of the returned state update. -/
def outOfScopeNode (agentList : String) : String × Option String :=
  ("I\x27m sorry, but I cannot help with that request. "
      ++ "Your question is outside the scope of available data.\n\n"
      ++ "I can help you with queries related to:\n" ++ agentList,
    some "out_of_scope")

/-! ## Query execution and post-execution routing
(`data_nodes.py` `execute_query`, `graph.py` `_route_after_execute`) -/

structure QueryResult where
  columns : List String
  rows : List (List String)
  row_count : Nat
deriving DecidableEq, Repr

/-- The state update returned by `execute_query`. -/
structure ExecUpdate where
  result : Option QueryResult
  error : Option String
deriving DecidableEq, Repr

/-- `DataAgentNodes.execute_query` (`data_nodes.py`, lines 293-350) on the
SQL path: `run` is the outcome of `sql_db.run(sql)`, with `.error e`
standing for a raised datasource exception.  The `except` clause turns any
exception into the `error` field of the returned update — the node itself
always returns normally. -/
def executeQueryNode (sql : String) (run : Except String String) : ExecUpdate :=
  if sql = "" then { result := none, error := some "No query to execute" }
  else
    match run with
    | .ok raw =>
      { result := some { columns := ["result"], rows := [[raw]], row_count := 1 }
      , error := none }
    | .error e =>
      { result := none, error := some ("Query execution failed: " ++ e) }

inductive ExecRoute where
  | errorRoute
  | visualize
  | respond
deriving DecidableEq, Repr

/-- `DataAgentGraph._route_after_execute` (`graph.py`, lines 89-102). -/
def routeAfterExecute (error : Option String) (vizRequested : Bool) :
    ExecRoute :=
  match error with
  | some e => if e ≠ "" then .errorRoute else if vizRequested then .visualize else .respond
  | none => if vizRequested then .visualize else .respond

/-- The nodes of the data-agent graph built by `DataAgentGraph.build`
(`graph.py`, lines 104-142), plus the terminal `END`. -/
inductive GraphNode where
  | generateSql
  | validateSql
  | retrySql
  | executeQuery
  | generateResponse
  | visualizeData
  | endNode
deriving DecidableEq, Repr

/-- The conditional-edge map attached to `execute_query` (`graph.py`,
lines 130-138): an execution error routes directly to `END`. -/
def execRouteTarget : ExecRoute → GraphNode
  | .errorRoute => .endNode
  | .visualize => .visualizeData
  | .respond => .generateResponse

/-- The successor relation of the data-agent graph (`graph.py`,
lines 121-141).  `END` has no successors: once reached, neither generation,
validation nor execution can run again for the question. -/
def dataGraphSuccessors : GraphNode → List GraphNode
  | .generateSql => [.validateSql]
  | .validateSql => [.retrySql, .executeQuery, .endNode]
  | .retrySql => [.validateSql]
  | .executeQuery => [.endNode, .visualizeData, .generateResponse]
  | .visualizeData => [.generateResponse]
  | .generateResponse => [.endNode]
  | .endNode => []

/-! ## Helper lemmas about the validator -/

/-- A write statement is never classified as a SELECT statement. -/
theorem isSelectStatement_eq_false_of_write {e : Expression}
    (h : isWriteKind e.kind = true) : isSelectStatement e = false := by
  obtain ⟨k, f, l⟩ := e
  cases k <;> simp_all [isWriteKind, isSelectStatement]

/-- `_enforce_limit` neither changes the statement kind nor its function
nodes. -/
theorem enforceLimit_preserves (v : SQLValidator) (e : Expression) :
    (enforceLimit v e).fst.kind = e.kind ∧ (enforceLimit v e).fst.funcs = e.funcs := by
  unfold enforceLimit
  split
  · exact ⟨rfl, rfl⟩
  · rcases hl : e.limit with _ | ⟨_ | n⟩ <;> simp [hl]
    split <;> simp

/-- `_enforce_limit` is idempotent, and the second pass never reports a
change. -/
theorem enforceLimit_idem (v : SQLValidator) (e : Expression) :
    enforceLimit v (enforceLimit v e).fst = ((enforceLimit v e).fst, false) := by
  unfold enforceLimit
  split
  · next hk => simp [hk]
  · next hk =>
    rw [not_not] at hk
    rcases hl : e.limit with _ | ⟨_ | n⟩
    · simp [hk, hl]
    · simp [hk, hl]
    · by_cases hn : n > v.max_limit
      · simp [hk, hl, hn]
      · simp [hk, hl, hn]

/-! ## Claim theorems -/

/-- C1: for every query whose parsed top-level form belongs to the fixed
write set, `SQLValidator.validate` returns a verdict with status UNSAFE —
never VALID and never INVALID — for every dialect (structural or
lexical-only) and for every `blocked_functions` configuration.  For the
lexical-only path, which never parses, the fact that the query is a write
statement is reflected by its text: the stripped upper-cased text of an
insert/update/delete/... statement does not begin with `SELECT` (hypothesis
`hq`). -/
theorem c1_write_statement_rejected
    (dialect : String) (max_limit : Int) (blocked : Option (List String))
    (parse : String → Except String Expression) (render : Expression → String)
    (q : String) (e : Expression)
    (hp : parse q = Except.ok e)
    (hw : isWriteKind e.kind = true)
    (hq : pyStartsWith (pyUpper (pyStrip q)) "SELECT" = false) :
    (validateWith (mkValidator dialect max_limit blocked) parse render q).status
      = ValidationStatus.notSafe := by
  unfold validateWith
  split
  · simp [validateBasic, hq]
  · simp [validateStructural, hp, isSelectStatement_eq_false_of_write hw]

/-- Witness for C1 at `DROP TABLE users` parsed as an `exp.Drop`. -/
theorem c1_witness :
    (validateWith (mkValidator "postgres" 10 none)
        (fun _ => Except.ok ⟨ExprKind.drop, [], none⟩) (fun _ => "")
        "DROP TABLE users").status = ValidationStatus.notSafe :=
  c1_write_statement_rejected "postgres" 10 none _ _ "DROP TABLE users"
    ⟨ExprKind.drop, [], none⟩ rfl (by decide) (by decide)

/-- C9: `SQLValidator.validate` is deterministic — two validators built by
`__init__` from identical `(dialect, max_limit, blocked_functions)` produce
identical verdicts for the same query text.  The absence of I/O and of any
execution of the statement is reflected by the embedding itself:
`validateWith` is a pure function of the constructor arguments, the parse
outcome and the query text, with no execution oracle in its type. -/
theorem c9_validate_deterministic
    (dialect : String) (max_limit : Int) (blocked : Option (List String))
    (parse : String → Except String Expression) (render : Expression → String)
    (q : String) (v₁ v₂ : SQLValidator)
    (h₁ : v₁ = mkValidator dialect max_limit blocked)
    (h₂ : v₂ = mkValidator dialect max_limit blocked) :
    validateWith v₁ parse render q = validateWith v₂ parse render q := by
  subst h₁
  subst h₂
  rfl

/-- Witness for C9 at two separately constructed postgres validators. -/
theorem c9_witness :
    validateWith (mkValidator "postgres" 100 none)
        (fun _ => Except.ok ⟨ExprKind.select, [], some (some 10)⟩)
        (fun _ => "SELECT x FROM t LIMIT 10") "SELECT x FROM t LIMIT 10"
      = validateWith (mkValidator "postgres" 100 none)
        (fun _ => Except.ok ⟨ExprKind.select, [], some (some 10)⟩)
        (fun _ => "SELECT x FROM t LIMIT 10") "SELECT x FROM t LIMIT 10" :=
  c9_validate_deterministic "postgres" 100 none _ _ "SELECT x FROM t LIMIT 10"
    _ _ rfl rfl

/-- C10: whenever `SQLValidator.validate` returns a verdict whose status is
not VALID (i.e. INVALID or UNSAFE), under any dialect, the verdict's `query`
field is the input string unchanged; only VALID verdicts carry transformed
text. -/
theorem c10_failure_preserves_query
    (v : SQLValidator) (parse : String → Except String Expression)
    (render : Expression → String) (q : String)
    (h : (validateWith v parse render q).status ≠ ValidationStatus.valid) :
    (validateWith v parse render q).query = q := by
  by_cases hb : BASIC_VALIDATION_DIALECTS.contains v.dialect
  · simp only [validateWith, hb, if_true]
    unfold validateBasic
    dsimp only
    split
    · rfl
    · split <;> rfl
  · simp only [validateWith, hb, if_false, Bool.false_eq_true] at h ⊢
    rcases hp : parse q with msg | e
    · simp [validateStructural, hp]
    · rw [hp] at h
      unfold validateStructural at h ⊢
      by_cases hs : isSelectStatement e
      · by_cases hd : (findDangerousFunctions v e).isEmpty
        · exfalso
          apply h
          simp [hs, hd]
        · simp [hs, hd]
      · simp [hs]

/-- Witness for C10 at an unparseable query. -/
theorem c10_witness :
    (validateWith (mkValidator "postgres" 100 none)
        (fun _ => Except.error "mismatched input") (fun _ => "")
        "SELEC oops").query = "SELEC oops" :=
  c10_failure_preserves_query (mkValidator "postgres" 100 none) _ _
    "SELEC oops" (by decide)

/-- C4 (code bug evidence): with `max_limit = 50`, a query with no LIMIT
clause is rewritten to LIMIT 50 *with* the warning, and a query with
`LIMIT 10` is left unchanged with no warning — but a query with
`LIMIT 10000` is clamped to 50 with an *empty* warning list, contradicting
the claim: `_enforce_limit` mutates the parsed tree in place in the clamp
branch, so `validate`'s `transformed != parsed` test compares the mutated
object with itself and the `LIMIT clause added/modified` warning can never
fire on a modification. -/
theorem c4_limit_rewrite_behaviour :
    ((validateWith (mkValidator "postgres" 50 none)
        (fun _ => Except.ok ⟨ExprKind.select, [], some (some 10000)⟩)
        (fun _ => "") "SELECT * FROM t LIMIT 10000").status
        = ValidationStatus.valid
      ∧ (validateWith (mkValidator "postgres" 50 none)
        (fun _ => Except.ok ⟨ExprKind.select, [], some (some 10000)⟩)
        (fun _ => "") "SELECT * FROM t LIMIT 10000").warnings = []
      ∧ (enforceLimit (mkValidator "postgres" 50 none)
        ⟨ExprKind.select, [], some (some 10000)⟩).fst.limit = some (some 50))
    ∧ ((validateWith (mkValidator "postgres" 50 none)
        (fun _ => Except.ok ⟨ExprKind.select, [], none⟩)
        (fun _ => "") "SELECT * FROM t").status = ValidationStatus.valid
      ∧ (validateWith (mkValidator "postgres" 50 none)
        (fun _ => Except.ok ⟨ExprKind.select, [], none⟩)
        (fun _ => "") "SELECT * FROM t").warnings
        = ["LIMIT clause added/modified to max 50"]
      ∧ (enforceLimit (mkValidator "postgres" 50 none)
        ⟨ExprKind.select, [], none⟩).fst.limit = some (some 50))
    ∧ ((validateWith (mkValidator "postgres" 50 none)
        (fun _ => Except.ok ⟨ExprKind.select, [], some (some 10)⟩)
        (fun _ => "") "SELECT * FROM t LIMIT 10").status
        = ValidationStatus.valid
      ∧ (validateWith (mkValidator "postgres" 50 none)
        (fun _ => Except.ok ⟨ExprKind.select, [], some (some 10)⟩)
        (fun _ => "") "SELECT * FROM t LIMIT 10").warnings = []
      ∧ (enforceLimit (mkValidator "postgres" 50 none)
        ⟨ExprKind.select, [], some (some 10)⟩).fst.limit = some (some 10)) := by
  decide

/-- C5: under the lexical-only dialect the rules apply in order — text not
beginning with SELECT (after strip and upper-casing) is UNSAFE; otherwise
any disallowed write keyword occurring as a whole space-delimited token
makes it UNSAFE; otherwise the verdict is VALID, with the original text and
the reduced-confidence warning. -/
theorem c5_lexical_rules (ml : Int) (bf : Option (List String))
    (parse : String → Except String Expression) (render : Expression → String)
    (q : String) :
    (pyStartsWith (pyUpper (pyStrip q)) "SELECT" = false →
      (validateWith (mkValidator "cosmosdb" ml bf) parse render q).status
          = ValidationStatus.notSafe
        ∧ (validateWith (mkValidator "cosmosdb" ml bf) parse render q).errors
          = ["Queries must start with SELECT"])
    ∧ (∀ kw, pyStartsWith (pyUpper (pyStrip q)) "SELECT" = true →
        kw ∈ DISALLOWED_KEYWORDS →
        strContains (" " ++ pyUpper (pyStrip q) ++ " ") (" " ++ kw ++ " ") = true →
        (validateWith (mkValidator "cosmosdb" ml bf) parse render q).status
          = ValidationStatus.notSafe)
    ∧ (pyStartsWith (pyUpper (pyStrip q)) "SELECT" = true →
        (∀ kw ∈ DISALLOWED_KEYWORDS,
          strContains (" " ++ pyUpper (pyStrip q) ++ " ") (" " ++ kw ++ " ") = false) →
        validateWith (mkValidator "cosmosdb" ml bf) parse render q =
          { status := ValidationStatus.valid, query := q, errors := []
          , warnings := ["Basic validation used for cosmosdb dialect"]
          , dialect := "cosmosdb" }) := by
  have hb : BASIC_VALIDATION_DIALECTS.contains
      (mkValidator "cosmosdb" ml bf).dialect = true := rfl
  have hval : validateWith (mkValidator "cosmosdb" ml bf) parse render q
      = validateBasic (mkValidator "cosmosdb" ml bf) q := by
    unfold validateWith
    rw [if_pos hb]
  refine ⟨?_, ?_, ?_⟩
  · intro hq
    rw [hval]
    unfold validateBasic
    dsimp only
    rw [if_pos hq]
    exact ⟨rfl, rfl⟩
  · intro kw hq hmem hcont
    rw [hval]
    unfold validateBasic
    dsimp only
    rw [if_neg (by simp [hq])]
    have hsome : (DISALLOWED_KEYWORDS.find?
        (fun k => strContains (" " ++ pyUpper (pyStrip q) ++ " ")
          (" " ++ k ++ " "))).isSome := by
      rw [List.find?_isSome]
      exact ⟨kw, hmem, hcont⟩
    rcases hf : DISALLOWED_KEYWORDS.find?
        (fun k => strContains (" " ++ pyUpper (pyStrip q) ++ " ")
          (" " ++ k ++ " ")) with _ | kw'
    · rw [hf] at hsome
      cases hsome
    · rfl
  · intro hq hnone
    rw [hval]
    unfold validateBasic
    dsimp only
    rw [if_neg (by simp [hq])]
    have hf : DISALLOWED_KEYWORDS.find?
        (fun k => strContains (" " ++ pyUpper (pyStrip q) ++ " ")
          (" " ++ k ++ " ")) = none := by
      rw [List.find?_eq_none]
      intro k hk
      simp [hnone k hk]
    rw [hf]
    rfl

/-- Witness for C5 at the spec's two scenario queries: the embedded
semicolon query is rejected through the whole-token UPDATE match, while
`updated_at` does not trigger the UPDATE keyword and the query is VALID with
the reduced-confidence warning. -/
theorem c5_witness :
    (validateWith (mkValidator "cosmosdb" 100 none) (fun _ => Except.error "")
        (fun _ => "") "SELECT * FROM t; UPDATE t SET x=1").status
      = ValidationStatus.notSafe
    ∧ validateWith (mkValidator "cosmosdb" 100 none) (fun _ => Except.error "")
        (fun _ => "") "SELECT id, updated_at FROM t" =
      { status := ValidationStatus.valid, query := "SELECT id, updated_at FROM t"
      , errors := []
      , warnings := ["Basic validation used for cosmosdb dialect"]
      , dialect := "cosmosdb" } :=
  ⟨(c5_lexical_rules 100 none (fun _ => Except.error "") (fun _ => "")
      "SELECT * FROM t; UPDATE t SET x=1").2.1 "UPDATE" (by decide) (by decide)
      (by decide),
   (c5_lexical_rules 100 none (fun _ => Except.error "") (fun _ => "")
      "SELECT id, updated_at FROM t").2.2 (by decide) (by decide)⟩

/-- C2 (counterexample): `INSERT INTO t VALUES (sleep(5))` parses to an
`exp.Insert` whose tree contains the default-blocklisted function `sleep`,
yet `validate` returns UNSAFE with the statement-type error only — no error
message cites `sleep`, because the statement-type check fires before the
blocklist scan.  This refutes the claim as stated for queries that are not
read-only. -/
theorem c2_counterexample :
    (validateWith (mkValidator "postgres" 100 none)
        (fun _ => Except.ok ⟨ExprKind.insert, ["sleep"], none⟩) (fun _ => "")
        "INSERT INTO t VALUES (sleep(5))").status = ValidationStatus.notSafe
    ∧ (validateWith (mkValidator "postgres" 100 none)
        (fun _ => Except.ok ⟨ExprKind.insert, ["sleep"], none⟩) (fun _ => "")
        "INSERT INTO t VALUES (sleep(5))").errors
      = ["Only SELECT statements are allowed"]
    ∧ (validateWith (mkValidator "postgres" 100 none)
        (fun _ => Except.ok ⟨ExprKind.insert, ["sleep"], none⟩) (fun _ => "")
        "INSERT INTO t VALUES (sleep(5))").errors.all
        (fun err => strContains err "sleep" = false) := by
  decide

/-- C2 (amended): for every query under a structural dialect whose parsed
form passes the read-only classification and which contains a call to a
default-blocklisted function name — in any letter case, at any nesting depth
(the flattened `find_all(exp.Func)` list) — `validate` returns UNSAFE with
an error message citing that function's lower-cased name, for any extra
blocklist configuration. -/
theorem c2_blocked_function_cited
    (dialect : String) (max_limit : Int) (extra : Option (List String))
    (parse : String → Except String Expression) (render : Expression → String)
    (q : String) (e : Expression) (fname : String)
    (hd : BASIC_VALIDATION_DIALECTS.contains
      (mkValidator dialect max_limit extra).dialect = false)
    (hp : parse q = Except.ok e)
    (hsel : isSelectStatement e = true)
    (hmem : fname ∈ e.funcs)
    (hblk : pyLower fname ∈ DANGEROUS_FUNCTIONS) :
    (validateWith (mkValidator dialect max_limit extra) parse render q).status
        = ValidationStatus.notSafe
    ∧ ∃ err ∈ (validateWith (mkValidator dialect max_limit extra)
        parse render q).errors,
        strContains err (pyLower fname) = true := by
  have hdang : pyLower fname ∈
      findDangerousFunctions (mkValidator dialect max_limit extra) e := by
    unfold findDangerousFunctions
    rw [List.mem_filter]
    refine ⟨List.mem_map_of_mem pyLower hmem, ?_⟩
    have : pyLower fname ∈
        (mkValidator dialect max_limit extra).blocked_functions :=
      List.mem_append_left _ hblk
    exact List.elem_eq_true_of_mem this
  have hne : (findDangerousFunctions
      (mkValidator dialect max_limit extra) e).isEmpty = false := by
    rcases hfd : findDangerousFunctions (mkValidator dialect max_limit extra) e
      with _ | ⟨a, l⟩
    · rw [hfd] at hdang
      cases hdang
    · rfl
  have hres : validateWith (mkValidator dialect max_limit extra) parse render q
      = { status := ValidationStatus.notSafe, query := q
        , errors := ["Blocked function(s) detected: " ++ joinComma
            (findDangerousFunctions (mkValidator dialect max_limit extra) e)]
        , warnings := []
        , dialect := (mkValidator dialect max_limit extra).dialect } := by
    unfold validateWith
    rw [if_neg (by rw [hd]; exact Bool.false_ne_true)]
    unfold validateStructural
    rw [hp]
    dsimp only
    rw [if_pos hsel, if_neg (by simp [hne])]
  refine ⟨by rw [hres], ?_⟩
  refine ⟨"Blocked function(s) detected: " ++ joinComma
      (findDangerousFunctions (mkValidator dialect max_limit extra) e),
    by rw [hres]; exact List.mem_singleton.mpr rfl, ?_⟩
  obtain ⟨s, t, hst⟩ := joinComma_decomp hdang
  unfold strContains
  rw [strData_append, hst]
  rw [show "Blocked function(s) detected: ".data ++ (s ++ (pyLower fname).data ++ t)
      = ("Blocked function(s) detected: ".data ++ s) ++ (pyLower fname).data ++ t by
    simp]
  exact listContains_parts _ _ _

/-- Witness for C2 (amended) at a select query calling `SlEeP` nested in its
WHERE clause. -/
theorem c2_witness :
    (validateWith (mkValidator "postgres" 100 none)
        (fun _ => Except.ok ⟨ExprKind.select, ["SlEeP"], none⟩)
        (fun _ => "") "SELECT a FROM t WHERE SlEeP(2) = 0").status
      = ValidationStatus.notSafe
    ∧ ∃ err ∈ (validateWith (mkValidator "postgres" 100 none)
        (fun _ => Except.ok ⟨ExprKind.select, ["SlEeP"], none⟩)
        (fun _ => "") "SELECT a FROM t WHERE SlEeP(2) = 0").errors,
        strContains err (pyLower "SlEeP") = true :=
  c2_blocked_function_cited "postgres" 100 none
    (fun _ => Except.ok ⟨ExprKind.select, ["SlEeP"], none⟩) (fun _ => "")
    "SELECT a FROM t WHERE SlEeP(2) = 0" ⟨ExprKind.select, ["SlEeP"], none⟩
    "SlEeP" (by decide) rfl (by decide) (by decide) (by decide)

/-- `isSelectStatement` only inspects the statement kind. -/
theorem isSelectStatement_congr_kind {e e' : Expression}
    (h : e'.kind = e.kind) : isSelectStatement e' = isSelectStatement e := by
  unfold isSelectStatement
  rw [h]

/-- C8: validation is idempotent on its own output.  For a parsed read-only
statement with no blocklisted calls and any existing row limit at most
`max_limit`, `validate` returns VALID with the rendered (possibly
limit-enforced) text, and validating that text again — under the assumption
`hrt` that the external parser round-trips its own rendering — returns VALID
with the identical text (and no further warning). -/
theorem c8_validate_idempotent
    (dialect : String) (max_limit : Int) (extra : Option (List String))
    (parse : String → Except String Expression) (render : Expression → String)
    (q : String) (e : Expression)
    (hd : BASIC_VALIDATION_DIALECTS.contains
      (mkValidator dialect max_limit extra).dialect = false)
    (hp : parse q = Except.ok e)
    (hsel : isSelectStatement e = true)
    (hfn : findDangerousFunctions (mkValidator dialect max_limit extra) e = [])
    (_hlim : ∀ n, e.limit = some (some n) → n ≤ max_limit)
    (hrt : parse (render
        (enforceLimit (mkValidator dialect max_limit extra) e).fst)
      = Except.ok (enforceLimit (mkValidator dialect max_limit extra) e).fst) :
    (validateWith (mkValidator dialect max_limit extra) parse render q).status
        = ValidationStatus.valid
    ∧ (validateWith (mkValidator dialect max_limit extra) parse render q).query
        = render (enforceLimit (mkValidator dialect max_limit extra) e).fst
    ∧ validateWith (mkValidator dialect max_limit extra) parse render
        (render (enforceLimit (mkValidator dialect max_limit extra) e).fst)
      = { status := ValidationStatus.valid
        , query := render (enforceLimit (mkValidator dialect max_limit extra) e).fst
        , errors := []
        , warnings := []
        , dialect := (mkValidator dialect max_limit extra).dialect } := by
  have hb : ¬ (BASIC_VALIDATION_DIALECTS.contains
      (mkValidator dialect max_limit extra).dialect = true) := by
    rw [hd]
    exact Bool.false_ne_true
  have hsel' : isSelectStatement
      (enforceLimit (mkValidator dialect max_limit extra) e).fst = true := by
    rw [isSelectStatement_congr_kind
      (enforceLimit_preserves (mkValidator dialect max_limit extra) e).1]
    exact hsel
  have hfn' : findDangerousFunctions (mkValidator dialect max_limit extra)
      (enforceLimit (mkValidator dialect max_limit extra) e).fst = [] := by
    unfold findDangerousFunctions at hfn ⊢
    rw [(enforceLimit_preserves (mkValidator dialect max_limit extra) e).2]
    exact hfn
  refine ⟨?_, ?_, ?_⟩
  · unfold validateWith
    rw [if_neg hb]
    unfold validateStructural
    rw [hp]
    dsimp only
    rw [if_pos hsel, hfn]
    rfl
  · unfold validateWith
    rw [if_neg hb]
    unfold validateStructural
    rw [hp]
    dsimp only
    rw [if_pos hsel, hfn]
    rfl
  · unfold validateWith
    rw [if_neg hb]
    unfold validateStructural
    rw [hrt]
    dsimp only
    rw [if_pos hsel', hfn',
      enforceLimit_idem (mkValidator dialect max_limit extra) e]
    rfl

/-- Witness for C8 at `SELECT 1 LIMIT 10` with `max_limit = 50`: the limit
is within bounds, so the verdict is VALID with unchanged text, and a second
validation reproduces it exactly. -/
theorem c8_witness :
    (validateWith (mkValidator "postgres" 50 none)
        (fun _ => Except.ok ⟨ExprKind.select, [], some (some 10)⟩)
        (fun _ => "SELECT 1 LIMIT 10") "SELECT 1 LIMIT 10").status
      = ValidationStatus.valid
    ∧ (validateWith (mkValidator "postgres" 50 none)
        (fun _ => Except.ok ⟨ExprKind.select, [], some (some 10)⟩)
        (fun _ => "SELECT 1 LIMIT 10") "SELECT 1 LIMIT 10").query
      = "SELECT 1 LIMIT 10"
    ∧ validateWith (mkValidator "postgres" 50 none)
        (fun _ => Except.ok ⟨ExprKind.select, [], some (some 10)⟩)
        (fun _ => "SELECT 1 LIMIT 10") "SELECT 1 LIMIT 10"
      = { status := ValidationStatus.valid, query := "SELECT 1 LIMIT 10"
        , errors := [], warnings := [], dialect := "postgres" } := by
  have h := c8_validate_idempotent "postgres" 50 none
    (fun _ => Except.ok ⟨ExprKind.select, [], some (some 10)⟩)
    (fun _ => "SELECT 1 LIMIT 10") "SELECT 1 LIMIT 10"
    ⟨ExprKind.select, [], some (some 10)⟩ (by decide) rfl (by decide) rfl
    (by
      intro n hn
      injection hn with h1
      injection h1 with h2
      rw [← h2]
      decide)
    rfl
  exact ⟨h.1, h.2.1, h.2.2⟩

/-- Once `_should_retry` stops answering `retry`, the loop is terminal: no
amount of extra fuel changes the state. -/
theorem retrySteps_halt (m : Nat) (errs : String) (k : Nat) (s : LoopState)
    (h : shouldRetry s.error = RetryRoute.endRoute) :
    retrySteps m errs k s = s := by
  cases k with
  | zero => rfl
  | succ n =>
    unfold retrySteps
    rw [h]

/-- One `retry_sql -> validate_sql` round of the loop. -/
theorem retrySteps_step (m : Nat) (errs : String) (k : Nat) (s : LoopState)
    (h : shouldRetry s.error = RetryRoute.retry) :
    retrySteps m errs (k + 1) s
      = retrySteps m errs k
          (validateNodeAlwaysBad m errs (retryNodeAlwaysBad m s)) := by
  conv_lhs => unfold retrySteps
  rw [h]

/-- C3 (counterexample): with retry budget 3 and an always-rejected
completion, the pipeline reaches the fatal `failed after` error only after
4 completion-function calls (the initial `generate_sql` plus 3 `retry_sql`
rounds) — a 4th call does occur, refuting `exactly 3 attempts, never a
4th`. -/
theorem c3_counterexample :
    (runRetryAlwaysBad 3 10 "[e]").genCalls = 4
    ∧ ¬ (runRetryAlwaysBad 3 10 "[e]").genCalls = 3
    ∧ (runRetryAlwaysBad 3 10 "[e]").error
        = some "Validation failed after 3 attempts: [e]"
    ∧ shouldRetry (runRetryAlwaysBad 3 10 "[e]").error = RetryRoute.endRoute := by
  decide

/-- C3 (amended): with retry budget 3 and a completion function whose every
query the validator rejects (with error text free of the fatal markers that
`_should_retry` greps for), the loop terminates in the fatal
retry-budget-exhausted failure after exactly 4 generation attempts — the
initial one plus 3 retries — and a 5th call to the completion function never
occurs, for any fuel. -/
theorem c3_budget_exhaustion (errs : String) (fuel : Nat)
    (hf : 3 ≤ fuel)
    (h1 : strContains ("Validation error: " ++ errs) "failed after" = false)
    (h2 : strContains ("Validation error: " ++ errs) "Max retries" = false) :
    (runRetryAlwaysBad 3 fuel errs).genCalls = 4
    ∧ (runRetryAlwaysBad 3 fuel errs).error
        = some ("Validation failed after 3 attempts: " ++ errs)
    ∧ shouldRetry (runRetryAlwaysBad 3 fuel errs).error = RetryRoute.endRoute := by
  have hneVE : ("Validation error: " ++ errs) ≠ "" :=
    strAppend_ne_empty errs (by decide)
  have hrouteVE : shouldRetry (some ("Validation error: " ++ errs))
      = RetryRoute.retry := by
    simp [shouldRetry, hneVE, h1, h2]
  have hfatalContains :
      strContains ("Validation failed after 3 attempts: " ++ errs)
        "failed after" = true := by
    unfold strContains
    rw [strData_append]
    rw [show "Validation failed after 3 attempts: ".data
        = "Validation ".data ++ "failed after".data ++ " 3 attempts: ".data
      by decide]
    rw [List.append_assoc ("Validation ".data ++ "failed after".data)]
    exact listContains_parts _ _ _
  have hneF : ("Validation failed after 3 attempts: " ++ errs) ≠ "" :=
    strAppend_ne_empty errs (by decide)
  have hrouteF : shouldRetry
      (some ("Validation failed after 3 attempts: " ++ errs))
      = RetryRoute.endRoute := by
    simp [shouldRetry, hneF, hfatalContains]
  obtain ⟨k, hk⟩ := Nat.exists_eq_add_of_le hf
  subst hk
  unfold runRetryAlwaysBad
  rw [show validateNodeAlwaysBad 3 errs (generateNode ⟨0, none, 0⟩)
      = ⟨0, some ("Validation error: " ++ errs), 1⟩ from rfl]
  rw [show 3 + k = (k + 2) + 1 from by omega]
  rw [retrySteps_step 3 errs (k + 2) _ hrouteVE]
  rw [show validateNodeAlwaysBad 3 errs
        (retryNodeAlwaysBad 3 ⟨0, some ("Validation error: " ++ errs), 1⟩)
      = ⟨1, some ("Validation error: " ++ errs), 2⟩ from rfl]
  rw [show k + 2 = (k + 1) + 1 from rfl]
  rw [retrySteps_step 3 errs (k + 1) _ hrouteVE]
  rw [show validateNodeAlwaysBad 3 errs
        (retryNodeAlwaysBad 3 ⟨1, some ("Validation error: " ++ errs), 2⟩)
      = ⟨2, some ("Validation error: " ++ errs), 3⟩ from rfl]
  rw [retrySteps_step 3 errs k _ hrouteVE]
  rw [show validateNodeAlwaysBad 3 errs
        (retryNodeAlwaysBad 3 ⟨2, some ("Validation error: " ++ errs), 3⟩)
      = ⟨3, some ("Validation failed after " ++ toString (3 : Nat)
          ++ " attempts: " ++ errs), 4⟩ from rfl]
  rw [show ("Validation failed after " ++ toString (3 : Nat) ++ " attempts: ")
      = "Validation failed after 3 attempts: " from by decide]
  rw [retrySteps_halt 3 errs k _ hrouteF]
  exact ⟨rfl, rfl, hrouteF⟩

/-- Witness for C3 (amended) at fuel 10 and a concrete validator error
text. -/
theorem c3_witness :
    (runRetryAlwaysBad 3 10 "[syntax error]").genCalls = 4
    ∧ (runRetryAlwaysBad 3 10 "[syntax error]").error
        = some "Validation failed after 3 attempts: [syntax error]"
    ∧ shouldRetry (runRetryAlwaysBad 3 10 "[syntax error]").error
        = RetryRoute.endRoute :=
  c3_budget_exhaustion "[syntax error]" 10 (by decide) (by decide) (by decide)

/-- C6: a question whose classification matches no registered agent name
suspends the router on the clarification interrupt exactly once; resuming
with a clarified question that again matches no agent name completes the
node (no second interrupt) with the out-of-scope marker, which the
conditional edge routes to the terminal `out_of_scope` node. -/
theorem c6_clarification_at_most_once
    (classify : String → String) (agentNames : List String) (q q' : String)
    (h1 : agentNames.contains (pyStrip (classify q)) = false)
    (h2 : agentNames.contains (pyStrip (classify q')) = false)
    (h3 : q' ≠ "") :
    intentDetectionNode classify agentNames q none
      = IntentResult.suspended
        { kind := "clarification_needed"
        , message := "I couldn\x27t understand your question. Could you please provide more details or rephrase it?"
        , original_question := q
        , hint := "Try being more specific about what data you\x27re looking for." }
    ∧ intentDetectionNode classify agentNames q (some q')
      = IntentResult.completed
        { question := none, datasource_name := "", error := some "out_of_scope" }
    ∧ routeAfterIntent "" (some "out_of_scope") = "out_of_scope" := by
  refine ⟨?_, ?_, rfl⟩
  · unfold intentDetectionNode
    rw [if_neg (by rw [h1]; exact Bool.false_ne_true)]
  · unfold intentDetectionNode
    rw [if_neg (by rw [h1]; exact Bool.false_ne_true)]
    dsimp only
    rw [if_pos h3, if_neg (by rw [h2]; exact Bool.false_ne_true)]

/-- Witness for C6 with a classifier that never names a registered agent. -/
theorem c6_witness :
    intentDetectionNode (fun _ => "none_of_the_above") ["sales", "hr"]
        "what is the weather" none
      = IntentResult.suspended
        { kind := "clarification_needed"
        , message := "I couldn\x27t understand your question. Could you please provide more details or rephrase it?"
        , original_question := "what is the weather"
        , hint := "Try being more specific about what data you\x27re looking for." }
    ∧ intentDetectionNode (fun _ => "none_of_the_above") ["sales", "hr"]
        "what is the weather" (some "the weather, really")
      = IntentResult.completed
        { question := none, datasource_name := "", error := some "out_of_scope" }
    ∧ routeAfterIntent "" (some "out_of_scope") = "out_of_scope" :=
  c6_clarification_at_most_once (fun _ => "none_of_the_above") ["sales", "hr"]
    "what is the weather" "the weather, really" (by decide) (by decide)
    (by decide)

/-- C7: a datasource exception during execution is captured in the `error`
field of the returned update — the node returns normally instead of
propagating — and the conditional edge after `execute_query` sends any
errored state straight to `END`, a node with no successors, so generation,
validation and execution are never re-entered for the question. -/
theorem c7_execution_error_terminal (sql msg : String) (viz : Bool)
    (hsql : sql ≠ "") :
    executeQueryNode sql (Except.error msg)
      = { result := none, error := some ("Query execution failed: " ++ msg) }
    ∧ routeAfterExecute (executeQueryNode sql (Except.error msg)).error viz
      = ExecRoute.errorRoute
    ∧ execRouteTarget ExecRoute.errorRoute = GraphNode.endNode
    ∧ dataGraphSuccessors GraphNode.endNode = [] := by
  have hexec : executeQueryNode sql (Except.error msg)
      = { result := none, error := some ("Query execution failed: " ++ msg) } := by
    unfold executeQueryNode
    rw [if_neg hsql]
  have hne : ("Query execution failed: " ++ msg) ≠ "" :=
    strAppend_ne_empty msg (by decide)
  refine ⟨hexec, ?_, rfl, rfl⟩
  rw [hexec]
  simp [routeAfterExecute, hne]

/-- Witness for C7 at a concrete failing execution. -/
theorem c7_witness :
    executeQueryNode "SELECT 1" (Except.error "connection refused")
      = { result := none
        , error := some ("Query execution failed: " ++ "connection refused") }
    ∧ routeAfterExecute
        (executeQueryNode "SELECT 1" (Except.error "connection refused")).error
        false = ExecRoute.errorRoute
    ∧ execRouteTarget ExecRoute.errorRoute = GraphNode.endNode
    ∧ dataGraphSuccessors GraphNode.endNode = [] :=
  c7_execution_error_terminal "SELECT 1" "connection refused" false (by decide)
